import Mathlib

/-!
Verification of the telegram-channel-guard-bot admin-abuse remediation core.

The definitions below are a shallow embedding of the Python source:
  - `channel_monitor.py` : `ChannelMonitor.is_member_ban`, `ChannelMonitor.is_admin_action`
  - `admin_manager.py`   : `AdminManager.restrict_admin_privileges`, `AdminManager.ban_user`,
                           `AdminManager.remove_and_ban_admin`
  - `bot_handler.py`     : `BotHandler.load_config`, `BotHandler.save_config`,
                           `BotHandler.chat_member_update`, `BotHandler.handle_admin_ban_action`,
                           and the config-list mutations in the command handlers.

External effects (Telegram API calls, the config file, message sending) are modelled by an
environment `Env` describing the outcome of each external call, and a `BotState` that carries
the in-memory config, the last successfully persisted config, the emitted log records and the
trace of attempted API calls.  Python exceptions are modelled with `Except`: an exception that
a function catches locally is flattened inside its embedding, and a `KeyError` raised by a
config-dictionary access is propagated via `Except (String × BotState)` (the state at raise
time travels with the exception, since Python keeps mutations made before the raise).
-/

/-- Chat member status strings used by the source
(`creator`, `administrator`, `member`, `restricted`, `left`, `kicked`). -/
inductive ChatStatus where
  | creator
  | administrator
  | member
  | restricted
  | left
  | kicked
deriving DecidableEq, Repr

/-- Log records emitted through `self.logger` / `self.bot_logger` by the embedded code paths.
Each constructor mirrors one logging call site in the source. -/
inductive LogEntry where
  | memberBanned (userId : Option Int) (chatId : Int) (adminId : Option Int)
  | restrictSuccess (adminId chatId : Int)
  | restrictError (adminId : Int) (msg : String)
  | banSuccess (userId chatId : Int)
  | banError (userId : Int) (msg : String)
  | removeAndBanSuccess (adminId chatId : Int)
  | banAdminFailed (adminId chatId : Int)
  | restrictAdminFailed (adminId chatId : Int)
  | adminBannedForAbuse (adminId chatId bannedId : Int)
  | saveConfigError (msg : String)
  | notificationError (msg : String)
  | handleAdminBanError (msg : String)
  | chatMemberUpdateError (msg : String)
deriving DecidableEq, Repr

/-- Telegram Bot API calls attempted by the embedded code paths. -/
inductive ApiCall where
  | promoteChatMember (chatId userId : Int)
  | banChatMember (chatId userId : Int)
  | getChatMember (chatId userId : Int)
  | sendMessage (chatId : Int)
  | writeConfig
deriving DecidableEq, Repr

/-- The `channel_settings` sub-dictionary of `config.json`.  Every field is an `Option`
because the corresponding key may be absent from the dictionary (the default produced by
`load_config` on a missing file contains only `auto_ban_enabled`); an access to an absent
key raises `KeyError` in Python. -/
structure ChannelSettings where
  auto_ban_enabled : Option Bool
  protected_channels : Option (List Int)
  monitored_admins : Option (List Int)
  notification_enabled : Option Bool
deriving DecidableEq, Repr

/-- The top-level config dictionary (`bot_settings` modelled by its only observed key). -/
structure Config where
  bot_settings_language : Option String
  channel_settings : Option ChannelSettings
deriving DecidableEq, Repr

/-- Remediation outcome vocabulary: `no_action` for every early return,
`admin_punished` for the success branch of `handle_admin_ban_action`,
`punishment_failed` when `remove_and_ban_admin` reports failure. -/
inductive RemediationOutcome where
  | noAction
  | adminPunished
  | punishmentFailed
deriving DecidableEq, Repr

/-- Mirrors `ChannelMonitor.is_member_ban` (channel_monitor.py lines 15-22):
the transition table there contains `(member, kicked)`, `(restricted, kicked)`
and also `(left, kicked)`. -/
def is_member_ban (old_status new_status : ChatStatus) : Bool :=
  decide ((old_status, new_status) ∈
    [(ChatStatus.member, ChatStatus.kicked),
     (ChatStatus.restricted, ChatStatus.kicked),
     (ChatStatus.left, ChatStatus.kicked)])

/-- Mirrors the inline ban-detection condition of `BotHandler.chat_member_update`
(bot_handler.py lines 520-522): `old_member.status in ['member', 'restricted'] and
new_member.status == 'kicked'`. -/
def is_ban_transition (old_status new_status : ChatStatus) : Bool :=
  decide (old_status ∈ [ChatStatus.member, ChatStatus.restricted]) &&
    (new_status == ChatStatus.kicked)

/-- A `chat_member` update payload: `old_chat_member`, `new_chat_member` (each carrying a
status and the subject user's id, which may be missing) and the acting user `from_user`. -/
structure ChatMemberInfo where
  status : ChatStatus
  userId : Option Int
deriving DecidableEq, Repr

structure ChatMemberUpdated where
  old_chat_member : Option ChatMemberInfo
  new_chat_member : Option ChatMemberInfo
  from_user : Option Int
deriving DecidableEq, Repr

/-- Mirrors `ChannelMonitor.is_admin_action` (channel_monitor.py lines 24-26):
`chat_member_update.from_user is not None`. -/
def is_admin_action (u : ChatMemberUpdated) : Bool :=
  u.from_user.isSome

/-- Mirrors the default dictionary built by `BotHandler.load_config` when `config.json`
is absent (bot_handler.py lines 32-35): `{"bot_settings": {"language": "ar"},
"channel_settings": {"auto_ban_enabled": True}}` — no other keys are present. -/
def default_config : Config :=
  { bot_settings_language := some "ar"
  , channel_settings := some
      { auto_ban_enabled := some true
      , protected_channels := none
      , monitored_admins := none
      , notification_enabled := none } }

/-- Mirrors `BotHandler.load_config` (bot_handler.py lines 25-35): the parsed file
contents when the file exists, otherwise the default dictionary. -/
def load_config (fileContents : Option Config) : Config :=
  match fileContents with
  | some c => c
  | none => default_config

/-- Mirrors the guarded append of `chat.id` to `protected_channels`
(bot_handler.py lines 159-160, 311-312, 731-732). -/
def add_protected_channel (chat_id : Int) (l : List Int) : List Int :=
  if chat_id ∈ l then l else l ++ [chat_id]

/-- Mirrors the guarded append of an admin id to `monitored_admins`
(bot_handler.py lines 163-164, 860-861, 1002-1003; admin_manager.py lines 91-92). -/
def add_monitored_admin (admin_id : Int) (l : List Int) : List Int :=
  if admin_id ∈ l then l else l ++ [admin_id]

/-- Mirrors the guarded `list.remove` of a channel id from `protected_channels`
(bot_handler.py lines 434-435). -/
def remove_protected_channel (chat_id : Int) (l : List Int) : List Int :=
  if chat_id ∈ l then l.erase chat_id else l

/-- Mirrors the guarded `list.remove` of an admin id from `monitored_admins`
(bot_handler.py lines 202-203, 459-460, 569-570). -/
def remove_monitored_admin (admin_id : Int) (l : List Int) : List Int :=
  if admin_id ∈ l then l.erase admin_id else l

/-- Outcome of each external call the remediation pipeline may perform, fixed per event.
An `Except.error` value means the corresponding Python call raises an exception with
that message. -/
structure Env where
  promote_result : Except String Unit
  ban_result : Except String Unit
  get_banned_member : Except String ChatStatus
  write_result : Except String Unit
  send_result : Except String Unit

/-- The bot's observable state: in-memory config, last successfully written file contents,
emitted log records and attempted API calls. -/
structure BotState where
  config : Config
  persisted : Option Config
  logs : List LogEntry
  calls : List ApiCall
deriving DecidableEq, Repr

/-- Dictionary access `d[key]`: returns the value when the key is present, otherwise raises
`KeyError` carrying the state at raise time. -/
def getKeyS {α : Type} (v : Option α) (key : String) (st : BotState) :
    Except (String × BotState) α :=
  match v with
  | some a => Except.ok a
  | none => Except.error ("KeyError: " ++ key, st)

@[simp] theorem getKeyS_some {α : Type} (a : α) (key : String) (st : BotState) :
    getKeyS (some a) key st = Except.ok a := rfl

@[simp] theorem getKeyS_none {α : Type} (key : String) (st : BotState) :
    getKeyS (none : Option α) key st = Except.error ("KeyError: " ++ key, st) := rfl

/-- Result of an `AdminManager` operation: Boolean success as returned by the Python
function, the log records it emitted and the API calls it attempted. -/
structure CallResult where
  ok : Bool
  logs : List LogEntry
  calls : List ApiCall
deriving DecidableEq, Repr

/-- Mirrors `AdminManager.restrict_admin_privileges` (admin_manager.py lines 37-64):
one `promote_chat_member` call with all grant flags false; any exception is caught
locally, logged, and turned into `False`. -/
def restrict_admin_privileges (env : Env) (chat_id admin_user_id : Int) : CallResult :=
  match env.promote_result with
  | Except.ok _ =>
      { ok := true
      , logs := [LogEntry.restrictSuccess admin_user_id chat_id]
      , calls := [ApiCall.promoteChatMember chat_id admin_user_id] }
  | Except.error e =>
      { ok := false
      , logs := [LogEntry.restrictError admin_user_id e]
      , calls := [ApiCall.promoteChatMember chat_id admin_user_id] }

/-- Mirrors `AdminManager.ban_user` (admin_manager.py lines 66-82): one
`ban_chat_member` call; any exception is caught locally, logged, and turned into `False`. -/
def ban_user (env : Env) (chat_id user_id : Int) : CallResult :=
  match env.ban_result with
  | Except.ok _ =>
      { ok := true
      , logs := [LogEntry.banSuccess user_id chat_id]
      , calls := [ApiCall.banChatMember chat_id user_id] }
  | Except.error e =>
      { ok := false
      , logs := [LogEntry.banError user_id e]
      , calls := [ApiCall.banChatMember chat_id user_id] }

/-- Mirrors `AdminManager.remove_and_ban_admin` (admin_manager.py lines 13-35):
demote first; only when demotion succeeded, ban; log the distinct failure message for
each of the two failure points; return `True` only when both steps succeeded. -/
def remove_and_ban_admin (env : Env) (chat_id admin_user_id : Int) : CallResult :=
  let r := restrict_admin_privileges env chat_id admin_user_id
  if r.ok then
    let b := ban_user env chat_id admin_user_id
    if b.ok then
      { ok := true
      , logs := r.logs ++ b.logs ++ [LogEntry.removeAndBanSuccess admin_user_id chat_id]
      , calls := r.calls ++ b.calls }
    else
      { ok := false
      , logs := r.logs ++ b.logs ++ [LogEntry.banAdminFailed admin_user_id chat_id]
      , calls := r.calls ++ b.calls }
  else
    { ok := false
    , logs := r.logs ++ [LogEntry.restrictAdminFailed admin_user_id chat_id]
    , calls := r.calls }

/-- Mirrors `BotHandler.save_config` (bot_handler.py lines 37-43): attempt the file write;
on success the file now holds the current in-memory config, on failure the error is logged
and the in-memory config is left as the authority. -/
def save_config (env : Env) (st : BotState) : BotState :=
  match env.write_result with
  | Except.ok _ =>
      { st with persisted := some st.config, calls := st.calls ++ [ApiCall.writeConfig] }
  | Except.error e =>
      { st with logs := st.logs ++ [LogEntry.saveConfigError e]
              , calls := st.calls ++ [ApiCall.writeConfig] }

/-- Mirrors the `try/except: pass` status probe of the banned subject
(bot_handler.py lines 555-560): `True` exactly when the fresh `get_chat_member` lookup
succeeds and reports `administrator` or `creator`; a lookup failure yields `False`
(the code continues with remediation). -/
def banned_is_admin_check (env : Env) : Bool :=
  match env.get_banned_member with
  | Except.ok s => s == ChatStatus.administrator || s == ChatStatus.creator
  | Except.error _ => false

/-- Mirrors the body of `BotHandler.handle_admin_ban_action` (bot_handler.py lines
545-595), i.e. everything inside its outer `try`.  Dictionary accesses may raise
`KeyError`, which propagates out of the body together with the state at raise time. -/
def handle_admin_ban_action_body (env : Env) (chat_id admin_id banned_id : Int)
    (st : BotState) : Except (String × BotState) (BotState × RemediationOutcome) :=
  match getKeyS st.config.channel_settings "channel_settings" st with
  | Except.error es => Except.error es
  | Except.ok cs =>
    match getKeyS cs.auto_ban_enabled "auto_ban_enabled" st with
    | Except.error es => Except.error es
    | Except.ok autoBan =>
      if !autoBan then Except.ok (st, RemediationOutcome.noAction)
      else
        match getKeyS cs.monitored_admins "monitored_admins" st with
        | Except.error es => Except.error es
        | Except.ok monitored =>
          if admin_id ∉ monitored then Except.ok (st, RemediationOutcome.noAction)
          else
            let st1 : BotState :=
              { st with calls := st.calls ++ [ApiCall.getChatMember chat_id banned_id] }
            if banned_is_admin_check env then Except.ok (st1, RemediationOutcome.noAction)
            else
              let r := remove_and_ban_admin env chat_id admin_id
              let st2 : BotState :=
                { st1 with logs := st1.logs ++ r.logs, calls := st1.calls ++ r.calls }
              if r.ok then
                match getKeyS st2.config.channel_settings "channel_settings" st2 with
                | Except.error es => Except.error es
                | Except.ok cs2 =>
                  match getKeyS cs2.monitored_admins "monitored_admins" st2 with
                  | Except.error es => Except.error es
                  | Except.ok monitored2 =>
                    let cs2' : ChannelSettings :=
                      { cs2 with monitored_admins := some (monitored2.erase admin_id) }
                    let config' : Config :=
                      { st2.config with channel_settings := some cs2' }
                    let st3 : BotState :=
                      if admin_id ∈ monitored2 then
                        save_config env { st2 with config := config' }
                      else st2
                    let st4 : BotState :=
                      { st3 with logs :=
                          st3.logs ++ [LogEntry.adminBannedForAbuse admin_id chat_id banned_id] }
                    match getKeyS st4.config.channel_settings "channel_settings" st4 with
                    | Except.error es => Except.error es
                    | Except.ok cs3 =>
                      match getKeyS cs3.notification_enabled "notification_enabled" st4 with
                      | Except.error es => Except.error es
                      | Except.ok notif =>
                        if notif then
                          let st5 : BotState :=
                            { st4 with calls := st4.calls ++ [ApiCall.sendMessage chat_id] }
                          match env.send_result with
                          | Except.ok _ => Except.ok (st5, RemediationOutcome.adminPunished)
                          | Except.error e =>
                              Except.ok
                                ({ st5 with logs := st5.logs ++ [LogEntry.notificationError e] },
                                 RemediationOutcome.adminPunished)
                        else Except.ok (st4, RemediationOutcome.adminPunished)
              else Except.ok (st2, RemediationOutcome.punishmentFailed)

/-- Mirrors `BotHandler.handle_admin_ban_action` (bot_handler.py lines 543-598): the outer
`try/except` catches every error raised by the body and logs it. -/
def handle_admin_ban_action (env : Env) (chat_id admin_id banned_id : Int)
    (st : BotState) : BotState × RemediationOutcome :=
  match handle_admin_ban_action_body env chat_id admin_id banned_id st with
  | Except.ok r => r
  | Except.error (e, st') =>
      ({ st' with logs := st'.logs ++ [LogEntry.handleAdminBanError e] },
       RemediationOutcome.noAction)

/-- Mirrors the body of `BotHandler.chat_member_update` (bot_handler.py lines 496-538),
i.e. everything inside its outer `try`. -/
def chat_member_update_body (env : Env) (effective_chat : Option (String × Int))
    (payload : Option ChatMemberUpdated) (st : BotState) :
    Except (String × BotState) (BotState × RemediationOutcome) :=
  match effective_chat with
  | none => Except.ok (st, RemediationOutcome.noAction)
  | some (chatType, chat_id) =>
    if chatType ∉ ["channel", "supergroup"] then Except.ok (st, RemediationOutcome.noAction)
    else
      match getKeyS st.config.channel_settings "channel_settings" st with
      | Except.error es => Except.error es
      | Except.ok cs =>
        match getKeyS cs.protected_channels "protected_channels" st with
        | Except.error es => Except.error es
        | Except.ok pcs =>
          if chat_id ∉ pcs then Except.ok (st, RemediationOutcome.noAction)
          else
            match payload with
            | none => Except.ok (st, RemediationOutcome.noAction)
            | some p =>
              match p.old_chat_member, p.new_chat_member with
              | some oldm, some newm =>
                if is_ban_transition oldm.status newm.status then
                  let st1 : BotState :=
                    { st with logs :=
                        st.logs ++ [LogEntry.memberBanned newm.userId chat_id p.from_user] }
                  match p.from_user, newm.userId with
                  | some admin_id, some banned_id =>
                      Except.ok (handle_admin_ban_action env chat_id admin_id banned_id st1)
                  | _, _ => Except.ok (st1, RemediationOutcome.noAction)
                else Except.ok (st, RemediationOutcome.noAction)
              | _, _ => Except.ok (st, RemediationOutcome.noAction)

/-- Mirrors `BotHandler.chat_member_update` (bot_handler.py lines 494-541): the outer
`try/except` catches every error raised by the body and logs it. -/
def chat_member_update (env : Env) (effective_chat : Option (String × Int))
    (payload : Option ChatMemberUpdated) (st : BotState) :
    BotState × RemediationOutcome :=
  match chat_member_update_body env effective_chat payload st with
  | Except.ok r => r
  | Except.error (e, st') =>
      ({ st' with logs := st'.logs ++ [LogEntry.chatMemberUpdateError e] },
       RemediationOutcome.noAction)

section HandlerPaths

variable (env : Env) (chat_id admin_id banned_id : Int) (st : BotState)
variable (cs : ChannelSettings) (ms : List Int)

/-- Path lemma: when the acting admin is not monitored, the handler returns without any
state change or API call. -/
theorem handle_not_monitored
    (hcs : st.config.channel_settings = some cs)
    (hab : cs.auto_ban_enabled = some true)
    (hm : cs.monitored_admins = some ms)
    (hnot : admin_id ∉ ms) :
    handle_admin_ban_action env chat_id admin_id banned_id st =
      (st, RemediationOutcome.noAction) := by
  simp [handle_admin_ban_action, handle_admin_ban_action_body, hcs, hab, hm, hnot]

/-- Path lemma: when the fresh lookup reports the banned subject as an admin or creator,
the handler returns `no_action` after only the lookup call. -/
theorem handle_banned_is_admin
    (hcs : st.config.channel_settings = some cs)
    (hab : cs.auto_ban_enabled = some true)
    (hm : cs.monitored_admins = some ms)
    (hmem : admin_id ∈ ms)
    (hB : banned_is_admin_check env = true) :
    handle_admin_ban_action env chat_id admin_id banned_id st =
      ({ st with calls := st.calls ++ [ApiCall.getChatMember chat_id banned_id] },
       RemediationOutcome.noAction) := by
  simp [handle_admin_ban_action, handle_admin_ban_action_body, hcs, hab, hm, hmem, hB]

/-- Path lemma: when the demotion call fails, the handler stops after the demote attempt
with `punishment_failed`, no ban call, and no config change. -/
theorem handle_demote_failed (e : String)
    (hcs : st.config.channel_settings = some cs)
    (hab : cs.auto_ban_enabled = some true)
    (hm : cs.monitored_admins = some ms)
    (hmem : admin_id ∈ ms)
    (hB : banned_is_admin_check env = false)
    (hpro : env.promote_result = Except.error e) :
    handle_admin_ban_action env chat_id admin_id banned_id st =
      ({ st with
          logs := st.logs ++
            [LogEntry.restrictError admin_id e,
             LogEntry.restrictAdminFailed admin_id chat_id]
        , calls := st.calls ++
            [ApiCall.getChatMember chat_id banned_id,
             ApiCall.promoteChatMember chat_id admin_id] },
       RemediationOutcome.punishmentFailed) := by
  simp [handle_admin_ban_action, handle_admin_ban_action_body, remove_and_ban_admin,
    restrict_admin_privileges, hcs, hab, hm, hmem, hB, hpro]

/-- Path lemma: when the demotion succeeded but the ban call fails, the handler logs the
distinct demoted-but-not-banned record and returns `punishment_failed` with no config
change. -/
theorem handle_ban_failed (e : String)
    (hcs : st.config.channel_settings = some cs)
    (hab : cs.auto_ban_enabled = some true)
    (hm : cs.monitored_admins = some ms)
    (hmem : admin_id ∈ ms)
    (hB : banned_is_admin_check env = false)
    (hpro : env.promote_result = Except.ok ())
    (hban : env.ban_result = Except.error e) :
    handle_admin_ban_action env chat_id admin_id banned_id st =
      ({ st with
          logs := st.logs ++
            [LogEntry.restrictSuccess admin_id chat_id,
             LogEntry.banError admin_id e,
             LogEntry.banAdminFailed admin_id chat_id]
        , calls := st.calls ++
            [ApiCall.getChatMember chat_id banned_id,
             ApiCall.promoteChatMember chat_id admin_id,
             ApiCall.banChatMember chat_id admin_id] },
       RemediationOutcome.punishmentFailed) := by
  simp [handle_admin_ban_action, handle_admin_ban_action_body, remove_and_ban_admin,
    restrict_admin_privileges, ban_user, hcs, hab, hm, hmem, hB, hpro, hban]

/-- Path lemma: on the full success path (demote and ban both succeeded, notification key
present) the handler reports `admin_punished`, the acting admin is erased from
`monitored_admins`, and a config write is attempted (recording the updated config when it
succeeds). -/
theorem handle_success_char (nb : Bool)
    (hcs : st.config.channel_settings = some cs)
    (hab : cs.auto_ban_enabled = some true)
    (hm : cs.monitored_admins = some ms)
    (hmem : admin_id ∈ ms)
    (hB : banned_is_admin_check env = false)
    (hpro : env.promote_result = Except.ok ())
    (hban : env.ban_result = Except.ok ())
    (hnb : cs.notification_enabled = some nb) :
    (handle_admin_ban_action env chat_id admin_id banned_id st).2 =
      RemediationOutcome.adminPunished ∧
    (handle_admin_ban_action env chat_id admin_id banned_id st).1.config =
      { st.config with channel_settings := some { cs with monitored_admins := some (ms.erase admin_id) } } ∧
    ApiCall.writeConfig ∈ (handle_admin_ban_action env chat_id admin_id banned_id st).1.calls ∧
    ApiCall.getChatMember chat_id banned_id ∈
      (handle_admin_ban_action env chat_id admin_id banned_id st).1.calls ∧
    ApiCall.promoteChatMember chat_id admin_id ∈
      (handle_admin_ban_action env chat_id admin_id banned_id st).1.calls ∧
    (env.write_result = Except.ok () →
      (handle_admin_ban_action env chat_id admin_id banned_id st).1.persisted =
        some (handle_admin_ban_action env chat_id admin_id banned_id st).1.config) := by
  rcases hw : env.write_result with we | wu
  · cases nb <;>
      [skip;
       rcases hs : env.send_result with se | su] <;>
      simp_all [handle_admin_ban_action, handle_admin_ban_action_body, remove_and_ban_admin,
        restrict_admin_privileges, ban_user, save_config]
  · cases nb <;>
      [skip;
       rcases hs : env.send_result with se | su] <;>
      simp_all [handle_admin_ban_action, handle_admin_ban_action_body, remove_and_ban_admin,
        restrict_admin_privileges, ban_user, save_config]

/-- Path lemma: demote and ban succeeded but the `notification_enabled` key is absent, so
the body raises `KeyError` after deregistration; the outer catch reports `no_action`. -/
theorem handle_success_missing_notification
    (hcs : st.config.channel_settings = some cs)
    (hab : cs.auto_ban_enabled = some true)
    (hm : cs.monitored_admins = some ms)
    (hmem : admin_id ∈ ms)
    (hB : banned_is_admin_check env = false)
    (hpro : env.promote_result = Except.ok ())
    (hban : env.ban_result = Except.ok ())
    (hnb : cs.notification_enabled = none) :
    (handle_admin_ban_action env chat_id admin_id banned_id st).2 =
      RemediationOutcome.noAction ∧
    ApiCall.getChatMember chat_id banned_id ∈
      (handle_admin_ban_action env chat_id admin_id banned_id st).1.calls ∧
    ApiCall.promoteChatMember chat_id admin_id ∈
      (handle_admin_ban_action env chat_id admin_id banned_id st).1.calls := by
  rcases hw : env.write_result with we | wu <;>
    simp_all [handle_admin_ban_action, handle_admin_ban_action_body, remove_and_ban_admin,
      restrict_admin_privileges, ban_user, save_config]

end HandlerPaths

/-- C2 counterexample: `ChannelMonitor.is_member_ban`, one of the two ban-detection tables
cited by the claim, does classify the `left → kicked` transition as a ban, contradicting
"the transition left to kicked is not classified as a ban". -/
theorem claim_c2_counterexample :
    is_member_ban ChatStatus.left ChatStatus.kicked = true := by decide

/-- C2 (amended): the ban detection actually applied on the event path — the inline check
in `BotHandler.chat_member_update` — reports a ban iff the new status is `kicked` and the
old status is `member` or `restricted`, so `left → kicked` is not a ban there; the unused
helper `ChannelMonitor.is_member_ban` additionally classifies `left → kicked` as a ban. -/
theorem claim_c2_classifier :
    (∀ o n : ChatStatus, is_ban_transition o n = true ↔
      (n = ChatStatus.kicked ∧ (o = ChatStatus.member ∨ o = ChatStatus.restricted))) ∧
    is_ban_transition ChatStatus.left ChatStatus.kicked = false ∧
    is_member_ban ChatStatus.left ChatStatus.kicked = true := by
  refine ⟨fun o n => ?_, by decide, by decide⟩
  cases o <;> cases n <;> decide

/-- C2 witness: the amended classification evaluated at a concrete transition. -/
theorem claim_c2_witness :
    is_ban_transition ChatStatus.member ChatStatus.kicked = true :=
  (claim_c2_classifier.1 ChatStatus.member ChatStatus.kicked).mpr (by decide)

/-- C3 counterexample: the default configuration produced by `load_config` on a missing
file does not contain the protected-channel and monitored-admin sets at all, so they are
not "present and empty" as the claim states. -/
theorem claim_c3_counterexample :
    ¬ ∃ cs : ChannelSettings,
        (load_config none).channel_settings = some cs ∧
        cs.protected_channels = some [] ∧ cs.monitored_admins = some [] := by
  rintro ⟨cs, h1, h2, h3⟩
  have hcs : ({ auto_ban_enabled := some true, protected_channels := none
              , monitored_admins := none
              , notification_enabled := none } : ChannelSettings) = cs := by
    simpa [load_config, default_config] using h1
  rw [← hcs] at h2
  simp at h2

/-- C3 (amended): `load_config` on a missing file returns the default in which
`auto_ban_enabled` is true but the `protected_channels` and `monitored_admins` keys are
absent (a later dictionary access to either raises `KeyError`). -/
theorem claim_c3_default_config :
    load_config none = default_config ∧
    default_config.channel_settings =
      some { auto_ban_enabled := some true, protected_channels := none
           , monitored_admins := none, notification_enabled := none } ∧
    default_config.channel_settings.bind ChannelSettings.protected_channels = none ∧
    default_config.channel_settings.bind ChannelSettings.monitored_admins = none := by
  refine ⟨rfl, rfl, rfl, rfl⟩

/-- Helper: the guarded append used by every add-mutation preserves `Nodup`. -/
theorem nodup_guarded_append (x : Int) (l : List Int) (h : l.Nodup) :
    (if x ∈ l then l else l ++ [x]).Nodup := by
  split
  · exact h
  · next hx =>
      refine h.append (List.nodup_singleton x) ?_
      simpa [List.disjoint_singleton] using hx

/-- C9: every mutating operation on the config lists — the guarded appends of
`add_admin_command` / `add_channel_command` and the guarded removals — preserves the
at-most-once invariant of `protected_channels` and `monitored_admins`. -/
theorem claim_c9_uniqueness (x y : Int) (pl ml : List Int)
    (hp : pl.Nodup) (hm : ml.Nodup) :
    (add_protected_channel x pl).Nodup ∧ (add_monitored_admin y ml).Nodup ∧
    (remove_protected_channel x pl).Nodup ∧ (remove_monitored_admin y ml).Nodup := by
  refine ⟨nodup_guarded_append x pl hp, nodup_guarded_append y ml hm, ?_, ?_⟩
  · unfold remove_protected_channel
    split
    · exact hp.erase x
    · exact hp
  · unfold remove_monitored_admin
    split
    · exact hm.erase y
    · exact hm

/-- C9 witness: uniqueness preservation evaluated at concrete lists. -/
theorem claim_c9_witness :
    ([1, 2] : List Int).Nodup ∧ ([3] : List Int).Nodup ∧
    ((add_protected_channel 5 [1, 2]).Nodup ∧ (add_monitored_admin 3 [3]).Nodup ∧
     (remove_protected_channel 5 [1, 2]).Nodup ∧ (remove_monitored_admin 3 [3]).Nodup) :=
  ⟨by decide, by decide, claim_c9_uniqueness 5 3 [1, 2] [3] (by decide) (by decide)⟩

/-- Concrete fixture: one protected channel `100`, one monitored admin `555`,
auto-ban and notifications enabled. -/
def cs0 : ChannelSettings :=
  { auto_ban_enabled := some true, protected_channels := some [100]
  , monitored_admins := some [555], notification_enabled := some true }

def config0 : Config :=
  { bot_settings_language := some "ar", channel_settings := some cs0 }

def st0 : BotState :=
  { config := config0, persisted := some config0, logs := [], calls := [] }

/-- Fixture environment: demotion succeeds, the ban call raises, the status lookup on the
banned subject raises (so remediation proceeds), file writes and sends succeed. -/
def envBanFails : Env :=
  { promote_result := Except.ok (), ban_result := Except.error "ban failed"
  , get_banned_member := Except.error "lookup failed"
  , write_result := Except.ok (), send_result := Except.ok () }

/-- Fixture environment: the demotion call raises. -/
def envDemoteFails : Env :=
  { promote_result := Except.error "no rights", ban_result := Except.ok ()
  , get_banned_member := Except.error "lookup failed"
  , write_result := Except.ok (), send_result := Except.ok () }

/-- Fixture environment: demotion and ban succeed, the status lookup raises. -/
def envSuccess : Env :=
  { promote_result := Except.ok (), ban_result := Except.ok ()
  , get_banned_member := Except.error "lookup failed"
  , write_result := Except.ok (), send_result := Except.ok () }

/-- C1 counterexample: with demotion succeeded and the ban call failed, the handler emits
the distinct failed-to-ban log record, but the config is unchanged — admin `555` is NOT
removed from the monitored-admin set, contradicting "still removes the offending admin's
ID from the monitored-admin set". -/
theorem claim_c1_counterexample :
    LogEntry.banAdminFailed 555 100 ∈
      (handle_admin_ban_action envBanFails 100 555 777 st0).1.logs ∧
    (handle_admin_ban_action envBanFails 100 555 777 st0).1.config = config0 ∧
    cs0.monitored_admins = some [555] := by decide

/-- C1 (amended): when demotion succeeds and the subsequent ban fails, the engine logs the
outcome distinctly (the failed-to-ban record, not the failed-to-demote one), reports
`punishment_failed`, and does NOT remove the admin from the monitored set — deregistration
does not proceed. -/
theorem claim_c1_ban_failure_no_deregistration (env : Env)
    (chat_id admin_id banned_id : Int) (st : BotState) (cs : ChannelSettings)
    (ms : List Int) (e : String)
    (hcs : st.config.channel_settings = some cs)
    (hab : cs.auto_ban_enabled = some true)
    (hm : cs.monitored_admins = some ms)
    (hmem : admin_id ∈ ms)
    (hB : banned_is_admin_check env = false)
    (hpro : env.promote_result = Except.ok ())
    (hban : env.ban_result = Except.error e) :
    handle_admin_ban_action env chat_id admin_id banned_id st =
      ({ st with
          logs := st.logs ++
            [LogEntry.restrictSuccess admin_id chat_id,
             LogEntry.banError admin_id e,
             LogEntry.banAdminFailed admin_id chat_id]
        , calls := st.calls ++
            [ApiCall.getChatMember chat_id banned_id,
             ApiCall.promoteChatMember chat_id admin_id,
             ApiCall.banChatMember chat_id admin_id] },
       RemediationOutcome.punishmentFailed) ∧
    LogEntry.banAdminFailed admin_id chat_id ∈
      (handle_admin_ban_action env chat_id admin_id banned_id st).1.logs ∧
    (handle_admin_ban_action env chat_id admin_id banned_id st).1.config = st.config := by
  have h := handle_ban_failed env chat_id admin_id banned_id st cs ms e
    hcs hab hm hmem hB hpro hban
  exact ⟨h, by rw [h]; simp, by rw [h]⟩

/-- C1 witness: the amended ban-failure behaviour evaluated on the concrete fixture. -/
theorem claim_c1_witness :
    banned_is_admin_check envBanFails = false ∧ 555 ∈ ([555] : List Int) ∧
    (handle_admin_ban_action envBanFails 100 555 777 st0 =
      ({ st0 with
          logs := st0.logs ++
            [LogEntry.restrictSuccess 555 100, LogEntry.banError 555 "ban failed",
             LogEntry.banAdminFailed 555 100]
        , calls := st0.calls ++
            [ApiCall.getChatMember 100 777, ApiCall.promoteChatMember 100 555,
             ApiCall.banChatMember 100 555] },
       RemediationOutcome.punishmentFailed) ∧
     LogEntry.banAdminFailed 555 100 ∈
       (handle_admin_ban_action envBanFails 100 555 777 st0).1.logs ∧
     (handle_admin_ban_action envBanFails 100 555 777 st0).1.config = st0.config) :=
  ⟨by decide, by decide,
   claim_c1_ban_failure_no_deregistration envBanFails 100 555 777 st0 cs0 [555]
     "ban failed" rfl rfl rfl (by decide) (by decide) rfl rfl⟩

/-- C4: when the demotion step fails, remediation returns `punishment_failed`, the ban
call is never attempted, and the config (hence the monitored-admin set) is unchanged. -/
theorem claim_c4_demote_failure_aborts (env : Env)
    (chat_id admin_id banned_id : Int) (st : BotState) (cs : ChannelSettings)
    (ms : List Int) (e : String)
    (hcs : st.config.channel_settings = some cs)
    (hab : cs.auto_ban_enabled = some true)
    (hm : cs.monitored_admins = some ms)
    (hmem : admin_id ∈ ms)
    (hB : banned_is_admin_check env = false)
    (hpro : env.promote_result = Except.error e) :
    handle_admin_ban_action env chat_id admin_id banned_id st =
      ({ st with
          logs := st.logs ++
            [LogEntry.restrictError admin_id e,
             LogEntry.restrictAdminFailed admin_id chat_id]
        , calls := st.calls ++
            [ApiCall.getChatMember chat_id banned_id,
             ApiCall.promoteChatMember chat_id admin_id] },
       RemediationOutcome.punishmentFailed) ∧
    (handle_admin_ban_action env chat_id admin_id banned_id st).1.config = st.config ∧
    (∀ c u : Int, ApiCall.banChatMember c u ∉
      (handle_admin_ban_action env chat_id admin_id banned_id st).1.calls.drop
        st.calls.length) := by
  have h := handle_demote_failed env chat_id admin_id banned_id st cs ms e
    hcs hab hm hmem hB hpro
  refine ⟨h, by rw [h], ?_⟩
  intro c u
  rw [h]
  simp [List.drop_left]

/-- C4 witness: the demote-failure behaviour evaluated on the concrete fixture. -/
theorem claim_c4_witness :
    banned_is_admin_check envDemoteFails = false ∧ 555 ∈ ([555] : List Int) ∧
    (handle_admin_ban_action envDemoteFails 100 555 777 st0 =
      ({ st0 with
          logs := st0.logs ++
            [LogEntry.restrictError 555 "no rights", LogEntry.restrictAdminFailed 555 100]
        , calls := st0.calls ++
            [ApiCall.getChatMember 100 777, ApiCall.promoteChatMember 100 555] },
       RemediationOutcome.punishmentFailed) ∧
     (handle_admin_ban_action envDemoteFails 100 555 777 st0).1.config = st0.config ∧
     (∀ c u : Int, ApiCall.banChatMember c u ∉
       (handle_admin_ban_action envDemoteFails 100 555 777 st0).1.calls.drop
         st0.calls.length)) :=
  ⟨by decide, by decide,
   claim_c4_demote_failure_aborts envDemoteFails 100 555 777 st0 cs0 [555]
     "no rights" rfl rfl rfl (by decide) (by decide) rfl⟩

/-- C5: after a successful remediation (demote and ban both succeeded), the acting admin's
id is absent from `monitored_admins` in the in-memory config, and the updated config is
persisted (the file write succeeds and records exactly the updated config). -/
theorem claim_c5_success_deregisters_and_persists (env : Env)
    (chat_id admin_id banned_id : Int) (st : BotState) (cs : ChannelSettings)
    (ms : List Int) (nb : Bool)
    (hcs : st.config.channel_settings = some cs)
    (hab : cs.auto_ban_enabled = some true)
    (hm : cs.monitored_admins = some ms)
    (hmem : admin_id ∈ ms)
    (hnd : ms.Nodup)
    (hB : banned_is_admin_check env = false)
    (hpro : env.promote_result = Except.ok ())
    (hban : env.ban_result = Except.ok ())
    (hnb : cs.notification_enabled = some nb)
    (hw : env.write_result = Except.ok ()) :
    (handle_admin_ban_action env chat_id admin_id banned_id st).2 =
      RemediationOutcome.adminPunished ∧
    (handle_admin_ban_action env chat_id admin_id banned_id st).1.config.channel_settings =
      some { cs with monitored_admins := some (ms.erase admin_id) } ∧
    admin_id ∉ ms.erase admin_id ∧
    (handle_admin_ban_action env chat_id admin_id banned_id st).1.persisted =
      some (handle_admin_ban_action env chat_id admin_id banned_id st).1.config := by
  obtain ⟨h1, h2, h3, h4, h5, h6⟩ := handle_success_char env chat_id admin_id banned_id
    st cs ms nb hcs hab hm hmem hB hpro hban hnb
  refine ⟨h1, ?_, ?_, h6 hw⟩
  · rw [h2]
  · simp [hnd.mem_erase_iff]

/-- C5 witness: the success behaviour evaluated on the concrete fixture. -/
theorem claim_c5_witness :
    banned_is_admin_check envSuccess = false ∧ 555 ∈ ([555] : List Int) ∧
    ([555] : List Int).Nodup ∧
    ((handle_admin_ban_action envSuccess 100 555 777 st0).2 =
       RemediationOutcome.adminPunished ∧
     (handle_admin_ban_action envSuccess 100 555 777 st0).1.config.channel_settings =
       some { cs0 with monitored_admins := some (([555] : List Int).erase 555) } ∧
     (555 : Int) ∉ ([555] : List Int).erase 555 ∧
     (handle_admin_ban_action envSuccess 100 555 777 st0).1.persisted =
       some (handle_admin_ban_action envSuccess 100 555 777 st0).1.config) :=
  ⟨by decide, by decide, by decide,
   claim_c5_success_deregisters_and_persists envSuccess 100 555 777 st0 cs0 [555]
     true rfl rfl rfl (by decide) (by decide) (by decide) rfl rfl rfl rfl⟩

/-- C8: once auto-ban is enabled and the acting admin is monitored, the engine always
performs a fresh membership lookup on the banned subject; if the lookup reports
`administrator` or `creator` the result is `no_action` with no other state change (the
acting admin stays monitored); if the lookup raises, remediation proceeds anyway (the
demote call is attempted). -/
theorem claim_c8_fresh_lookup (env : Env)
    (chat_id admin_id banned_id : Int) (st : BotState) (cs : ChannelSettings)
    (ms : List Int)
    (hcs : st.config.channel_settings = some cs)
    (hab : cs.auto_ban_enabled = some true)
    (hm : cs.monitored_admins = some ms)
    (hmem : admin_id ∈ ms) :
    ApiCall.getChatMember chat_id banned_id ∈
      (handle_admin_ban_action env chat_id admin_id banned_id st).1.calls ∧
    (∀ s : ChatStatus, env.get_banned_member = Except.ok s →
      (s = ChatStatus.administrator ∨ s = ChatStatus.creator) →
      handle_admin_ban_action env chat_id admin_id banned_id st =
        ({ st with calls := st.calls ++ [ApiCall.getChatMember chat_id banned_id] },
         RemediationOutcome.noAction)) ∧
    (∀ e : String, env.get_banned_member = Except.error e →
      ApiCall.promoteChatMember chat_id admin_id ∈
        (handle_admin_ban_action env chat_id admin_id banned_id st).1.calls) := by
  refine ⟨?_, ?_, ?_⟩
  · cases hB : banned_is_admin_check env with
    | true =>
        rw [handle_banned_is_admin env chat_id admin_id banned_id st cs ms
          hcs hab hm hmem hB]
        simp
    | false =>
        rcases hp : env.promote_result with pe | pu
        · rw [handle_demote_failed env chat_id admin_id banned_id st cs ms pe
            hcs hab hm hmem hB hp]
          simp
        · cases pu
          rcases hbn : env.ban_result with be | bu
          · rw [handle_ban_failed env chat_id admin_id banned_id st cs ms be
              hcs hab hm hmem hB hp hbn]
            simp
          · cases bu
            rcases hnb : cs.notification_enabled with _ | nb
            · exact (handle_success_missing_notification env chat_id admin_id banned_id
                st cs ms hcs hab hm hmem hB hp hbn hnb).2.1
            · exact (handle_success_char env chat_id admin_id banned_id st cs ms nb
                hcs hab hm hmem hB hp hbn hnb).2.2.2.1
  · intro s hs hadm
    have hB : banned_is_admin_check env = true := by
      rcases hadm with rfl | rfl <;> simp [banned_is_admin_check, hs]
    exact handle_banned_is_admin env chat_id admin_id banned_id st cs ms
      hcs hab hm hmem hB
  · intro e he
    have hB : banned_is_admin_check env = false := by
      simp [banned_is_admin_check, he]
    rcases hp : env.promote_result with pe | pu
    · rw [handle_demote_failed env chat_id admin_id banned_id st cs ms pe
        hcs hab hm hmem hB hp]
      simp
    · cases pu
      rcases hbn : env.ban_result with be | bu
      · rw [handle_ban_failed env chat_id admin_id banned_id st cs ms be
          hcs hab hm hmem hB hp hbn]
        simp
      · cases bu
        rcases hnb : cs.notification_enabled with _ | nb
        · exact (handle_success_missing_notification env chat_id admin_id banned_id
            st cs ms hcs hab hm hmem hB hp hbn hnb).2.2
        · exact (handle_success_char env chat_id admin_id banned_id st cs ms nb
            hcs hab hm hmem hB hp hbn hnb).2.2.2.2.1

/-- C8 witness: the fresh-lookup behaviour evaluated on the concrete fixture (where the
lookup raises, so remediation proceeds to the demote call). -/
theorem claim_c8_witness :
    st0.config.channel_settings = some cs0 ∧ 555 ∈ ([555] : List Int) ∧
    (ApiCall.getChatMember 100 777 ∈
       (handle_admin_ban_action envSuccess 100 555 777 st0).1.calls ∧
     (∀ s : ChatStatus, envSuccess.get_banned_member = Except.ok s →
       (s = ChatStatus.administrator ∨ s = ChatStatus.creator) →
       handle_admin_ban_action envSuccess 100 555 777 st0 =
         ({ st0 with calls := st0.calls ++ [ApiCall.getChatMember 100 777] },
          RemediationOutcome.noAction)) ∧
     (∀ e : String, envSuccess.get_banned_member = Except.error e →
       ApiCall.promoteChatMember 100 555 ∈
         (handle_admin_ban_action envSuccess 100 555 777 st0).1.calls)) :=
  ⟨rfl, by decide,
   claim_c8_fresh_lookup envSuccess 100 555 777 st0 cs0 [555] rfl rfl rfl (by decide)⟩

/-- Helper: whenever the handler reports `admin_punished`, the resulting in-memory config
is the input config with the acting admin erased from `monitored_admins`. -/
theorem handle_punished_config (env : Env) (chat_id admin_id banned_id : Int)
    (st : BotState) (cs : ChannelSettings) (ms : List Int)
    (hcs : st.config.channel_settings = some cs)
    (hab : cs.auto_ban_enabled = some true)
    (hm : cs.monitored_admins = some ms)
    (hmem : admin_id ∈ ms)
    (hpun : (handle_admin_ban_action env chat_id admin_id banned_id st).2 =
      RemediationOutcome.adminPunished) :
    (handle_admin_ban_action env chat_id admin_id banned_id st).1.config =
      { st.config with channel_settings := some { cs with monitored_admins := some (ms.erase admin_id) } } := by
  cases hB : banned_is_admin_check env with
  | true =>
      rw [handle_banned_is_admin env chat_id admin_id banned_id st cs ms
        hcs hab hm hmem hB] at hpun
      simp at hpun
  | false =>
      rcases hp : env.promote_result with pe | pu
      · rw [handle_demote_failed env chat_id admin_id banned_id st cs ms pe
          hcs hab hm hmem hB hp] at hpun
        simp at hpun
      · cases pu
        rcases hbn : env.ban_result with be | bu
        · rw [handle_ban_failed env chat_id admin_id banned_id st cs ms be
            hcs hab hm hmem hB hp hbn] at hpun
          simp at hpun
        · cases bu
          rcases hnb : cs.notification_enabled with _ | nb
          · rw [(handle_success_missing_notification env chat_id admin_id banned_id
              st cs ms hcs hab hm hmem hB hp hbn hnb).1] at hpun
            simp at hpun
          · have h2 := (handle_success_char env chat_id admin_id banned_id st cs ms nb
              hcs hab hm hmem hB hp hbn hnb).2.1
            rw [hnb] at h2
            exact h2

/-- C6: remediation is idempotent over duplicate delivery — if the first call for an event
reported `admin_punished`, a second call with the identical event (under any environment)
returns `no_action` with the state completely unchanged: no second deregistration, no
error. -/
theorem claim_c6_idempotent (env env2 : Env) (chat_id admin_id banned_id : Int)
    (st : BotState) (cs : ChannelSettings) (ms : List Int)
    (hcs : st.config.channel_settings = some cs)
    (hab : cs.auto_ban_enabled = some true)
    (hm : cs.monitored_admins = some ms)
    (hmem : admin_id ∈ ms)
    (hnd : ms.Nodup)
    (hpun : (handle_admin_ban_action env chat_id admin_id banned_id st).2 =
      RemediationOutcome.adminPunished) :
    handle_admin_ban_action env2 chat_id admin_id banned_id
        (handle_admin_ban_action env chat_id admin_id banned_id st).1 =
      ((handle_admin_ban_action env chat_id admin_id banned_id st).1,
       RemediationOutcome.noAction) := by
  have hcfg := handle_punished_config env chat_id admin_id banned_id st cs ms
    hcs hab hm hmem hpun
  refine handle_not_monitored env2 chat_id admin_id banned_id _
    ({ cs with monitored_admins := some (ms.erase admin_id) }) (ms.erase admin_id)
    ?_ hab rfl ?_
  · rw [hcfg]
  · simp [hnd.mem_erase_iff]

/-- C6 witness: the idempotence behaviour on the concrete fixture (the duplicate delivery
is processed under an environment whose ban call would now fail, and still yields
`no_action` with no state change). -/
theorem claim_c6_witness :
    ([555] : List Int).Nodup ∧
    (handle_admin_ban_action envSuccess 100 555 777 st0).2 =
      RemediationOutcome.adminPunished ∧
    handle_admin_ban_action envBanFails 100 555 777
        (handle_admin_ban_action envSuccess 100 555 777 st0).1 =
      ((handle_admin_ban_action envSuccess 100 555 777 st0).1,
       RemediationOutcome.noAction) :=
  ⟨by decide, by decide,
   claim_c6_idempotent envSuccess envBanFails 100 555 777 st0 cs0 [555]
     rfl rfl rfl (by decide) (by decide) (by decide)⟩

/-- C7: a membership transition whose actor is null triggers no remediation:
`is_admin_action` is false, the pipeline outcome is `no_action`, and the configuration
(in-memory and persisted) is unchanged with no API call attempted. -/
theorem claim_c7_null_actor_no_action (env : Env) (ctype : String) (chat_id : Int)
    (p : ChatMemberUpdated) (st : BotState)
    (hnull : p.from_user = none) :
    is_admin_action p = false ∧
    (chat_member_update env (some (ctype, chat_id)) (some p) st).2 =
      RemediationOutcome.noAction ∧
    (chat_member_update env (some (ctype, chat_id)) (some p) st).1.config = st.config ∧
    (chat_member_update env (some (ctype, chat_id)) (some p) st).1.persisted =
      st.persisted ∧
    (chat_member_update env (some (ctype, chat_id)) (some p) st).1.calls = st.calls := by
  refine ⟨by simp [is_admin_action, hnull], ?_⟩
  unfold chat_member_update chat_member_update_body
  by_cases hct : ctype ∈ ["channel", "supergroup"]
  · rcases hcc : st.config.channel_settings with _ | cs
    · simp [hct, hcc]
    · rcases hpc : cs.protected_channels with _ | pcs
      · simp [hct, hcc, hpc]
      · by_cases hin : chat_id ∈ pcs
        · rcases hold : p.old_chat_member with _ | om
          · simp [hct, hcc, hpc, hin, hold]
          · rcases hnew : p.new_chat_member with _ | nm
            · simp [hct, hcc, hpc, hin, hold, hnew]
            · cases hbt : is_ban_transition om.status nm.status
              · simp [hct, hcc, hpc, hin, hold, hnew, hbt]
              · simp [hct, hcc, hpc, hin, hold, hnew, hbt, hnull]
        · simp [hct, hcc, hpc, hin]
  · simp [hct]

/-- C7 witness: the null-actor behaviour evaluated on a concrete payload. -/
theorem claim_c7_witness :
    ({ old_chat_member := some { status := ChatStatus.member, userId := some 777 }
     , new_chat_member := some { status := ChatStatus.kicked, userId := some 777 }
     , from_user := none } : ChatMemberUpdated).from_user = none ∧
    (is_admin_action
       { old_chat_member := some { status := ChatStatus.member, userId := some 777 }
       , new_chat_member := some { status := ChatStatus.kicked, userId := some 777 }
       , from_user := none } = false ∧
     (chat_member_update envSuccess (some ("channel", 100))
        (some { old_chat_member := some { status := ChatStatus.member, userId := some 777 }
              , new_chat_member := some { status := ChatStatus.kicked, userId := some 777 }
              , from_user := none }) st0).2 = RemediationOutcome.noAction ∧
     (chat_member_update envSuccess (some ("channel", 100))
        (some { old_chat_member := some { status := ChatStatus.member, userId := some 777 }
              , new_chat_member := some { status := ChatStatus.kicked, userId := some 777 }
              , from_user := none }) st0).1.config = st0.config ∧
     (chat_member_update envSuccess (some ("channel", 100))
        (some { old_chat_member := some { status := ChatStatus.member, userId := some 777 }
              , new_chat_member := some { status := ChatStatus.kicked, userId := some 777 }
              , from_user := none }) st0).1.persisted = st0.persisted ∧
     (chat_member_update envSuccess (some ("channel", 100))
        (some { old_chat_member := some { status := ChatStatus.member, userId := some 777 }
              , new_chat_member := some { status := ChatStatus.kicked, userId := some 777 }
              , from_user := none }) st0).1.calls = st0.calls) :=
  ⟨rfl,
   claim_c7_null_actor_no_action envSuccess "channel" 100
     { old_chat_member := some { status := ChatStatus.member, userId := some 777 }
     , new_chat_member := some { status := ChatStatus.kicked, userId := some 777 }
     , from_user := none } st0 rfl⟩

/-- C10: neither entry point lets an exception escape to the ingestion loop — whenever the
body of `chat_member_update` or of `handle_admin_ban_action` raises, the entry point
catches it, logs it, and returns normally with `no_action`. -/
theorem claim_c10_no_exception_propagation :
    (∀ (env : Env) (ec : Option (String × Int)) (p : Option ChatMemberUpdated)
       (st : BotState) (e : String) (st' : BotState),
       chat_member_update_body env ec p st = Except.error (e, st') →
       chat_member_update env ec p st =
         ({ st' with logs := st'.logs ++ [LogEntry.chatMemberUpdateError e] },
          RemediationOutcome.noAction)) ∧
    (∀ (env : Env) (chat_id admin_id banned_id : Int) (st : BotState)
       (e : String) (st' : BotState),
       handle_admin_ban_action_body env chat_id admin_id banned_id st =
         Except.error (e, st') →
       handle_admin_ban_action env chat_id admin_id banned_id st =
         ({ st' with logs := st'.logs ++ [LogEntry.handleAdminBanError e] },
          RemediationOutcome.noAction)) := by
  constructor
  · intro env ec p st e st' h
    unfold chat_member_update
    rw [h]
  · intro env chat_id admin_id banned_id st e st' h
    unfold handle_admin_ban_action
    rw [h]

/-- Fixture: a fresh state whose config is the incomplete default (no
`protected_channels` key), so the pipeline raises `KeyError` internally. -/
def stDefault : BotState :=
  { config := default_config, persisted := none, logs := [], calls := [] }

/-- C10 witness: on the default config, the body of `chat_member_update` raises
`KeyError: protected_channels`, and the entry point converts it into a logged
`no_action` return. -/
theorem claim_c10_witness :
    chat_member_update envSuccess (some ("channel", 5))
        (some { old_chat_member := none, new_chat_member := none, from_user := none })
        stDefault =
      ({ stDefault with logs :=
          stDefault.logs ++ [LogEntry.chatMemberUpdateError "KeyError: protected_channels"] },
       RemediationOutcome.noAction) :=
  claim_c10_no_exception_propagation.1 envSuccess (some ("channel", 5))
    (some { old_chat_member := none, new_chat_member := none, from_user := none })
    stDefault "KeyError: protected_channels" stDefault rfl
